import Mathlib

/-!
Shallow embedding of the `grid` crate (`src/grid.rs`): a generic heap-allocated
2D grid indexed by an integer coordinate pair, stored row-major in a flat
vector.  Rust `i64` is modelled as `Int`, `usize` values are modelled as `Nat`
with the platform limit `usizeMax = 2^64 - 1` made explicit where the code
checks it, `Vec<T>` is modelled as `List T`, and a panic is modelled as the
`none` branch of an `Option` result (or an explicit constructor carrying the
diagnostic data, for the `Index`/`IndexMut` operators).
-/

namespace GridSpec

/-- Modelled from the spec: the external `Vector` position type
(`crate::vector`, not among the sources) is "an immutable value pair of two
integer coordinates" supporting equality, copy and construction from two
integers (§2, §3). -/
structure Vector where
  x : Int
  y : Int
deriving DecidableEq

/-- `Vector::new` (modelled from the spec: construction from two integers). -/
def Vector.new (x y : Int) : Vector := ⟨x, y⟩

/-- The maximum value of `usize` on the 64-bit platform (`usize::MAX`). -/
def usizeMax : Nat := 2 ^ 64 - 1

/-- The free function `size(width, height)` of `grid.rs`: panics (`none`) if a
dimension is not positive, or if `(width as usize).checked_mul(height as usize)`
overflows; otherwise returns the element count.  For positive `i64` inputs the
`as usize` casts are value-preserving, hence `Int.toNat`. -/
def size (width height : Int) : Option Nat :=
  if width ≤ 0 ∨ height ≤ 0 then none
  else if width.toNat * height.toNat ≤ usizeMax then some (width.toNat * height.toNat)
  else none

/-- The `Grid` struct: flat row-major storage `raw` and dimensions `dim`. -/
structure Grid (T : Type) where
  raw : List T
  dim : Vector
deriving DecidableEq

variable {T U : Type}

/-- `Grid::width`. -/
def Grid.width (g : Grid T) : Int := g.dim.x

/-- `Grid::height`. -/
def Grid.height (g : Grid T) : Int := g.dim.y

/-- `Grid::new(width, height, value)`: all cells initialised to `value`
(`Vec::resize` after `size` validates the dimensions). -/
def Grid.new (width height : Int) (value : T) : Option (Grid T) :=
  (size width height).map fun s => { raw := List.replicate s value, dim := ⟨width, height⟩ }

/-- `Grid::default(width, height)`: all cells initialised to `T`'s default
value, passed here explicitly as `d` (`Vec::resize_with(size, Default::default)`). -/
def Grid.defaultGrid (width height : Int) (d : T) : Option (Grid T) :=
  (size width height).map fun s => { raw := List.replicate s d, dim := ⟨width, height⟩ }

/-- `Grid::from_simple_fn(width, height, f)`: `Vec::resize_with(size, f)` calls
the `FnMut` closure once per cell in order; `f n` is the value returned by its
`n`-th invocation. -/
def Grid.from_simple_fn (width height : Int) (f : Nat → T) : Option (Grid T) :=
  (size width height).map fun s => { raw := (List.range s).map f, dim := ⟨width, height⟩ }

/-- The row-major position sequence produced by the nested loops
`for y in 0..height { for x in 0..width { ... } }` of `Grid::from_fn`
(`Nat` dimensions). -/
def posList (w h : Nat) : List Vector :=
  (List.range h).flatMap fun (y : Nat) =>
    (List.range w).map fun (x : Nat) => { x := (x : Int), y := (y : Int) }

/-- The row-major position sequence for `i64` dimensions (empty when a
dimension is not positive, exactly as the Rust `for` loops over `0..height`). -/
def positions (width height : Int) : List Vector := posList width.toNat height.toNat

/-- `Grid::from_fn(width, height, f)`: `size` validates the dimensions (in
`Vec::with_capacity(size(width, height))`), then the nested loops push
`f(Vector::new(x, y))` in row-major order. -/
def Grid.from_fn (width height : Int) (f : Vector → T) : Option (Grid T) :=
  (size width height).map fun _ => { raw := (positions width height).map f, dim := ⟨width, height⟩ }

/-- `Grid::from_iter(width, height, values)`: after `size` validates the
dimensions, pops exactly `size` values off the iterator (modelled as the list
`values`), panicking (`none`) if it runs out; trailing values are never
consumed. -/
def Grid.from_iter (width height : Int) (values : List T) : Option (Grid T) :=
  (size width height).bind fun s =>
    if s ≤ values.length then some { raw := values.take s, dim := ⟨width, height⟩ }
    else none

/-- `Grid::from_nested_iter(values)`: zero rows give the `(0, 0)` grid; else
the width is the first row's length and every later row must match it or the
function panics (`none`); the height counts the rows. -/
def Grid.from_nested_iter (values : List (List T)) : Option (Grid T) :=
  match values with
  | [] => some { raw := [], dim := ⟨0, 0⟩ }
  | first :: rest =>
    if rest.all fun r => r.length = first.length then
      some { raw := (first :: rest).flatten,
             dim := ⟨(first.length : Int), (rest.length : Int) + 1⟩ }
    else none

/-- `Grid::in_bounds(pos)`: `(0..width).contains(&pos.x) && (0..height).contains(&pos.y)`. -/
def Grid.in_bounds (g : Grid T) (pos : Vector) : Bool :=
  (0 ≤ pos.x && pos.x < g.width) && (0 ≤ pos.y && pos.y < g.height)

/-- `Grid::get_index(pos)`: `in_bounds(pos).then(|| pos.x as usize + ((pos.y as usize) * (width as usize)))`.
The casts are value-preserving because `in_bounds` implies the coordinates are
non-negative and below the (hence positive) dimensions. -/
def Grid.get_index (g : Grid T) (pos : Vector) : Option Nat :=
  if g.in_bounds pos then some (pos.x.toNat + pos.y.toNat * g.width.toNat) else none

/-- `Grid::get(pos)`: `Some(&self.raw[self.get_index(pos)?])`.  The inner list
lookup is total here (`raw[i]?`); for any grid satisfying the length invariant
the index returned by `get_index` is in range, so the two models agree. -/
def Grid.get (g : Grid T) (pos : Vector) : Option T :=
  (g.get_index pos).bind fun i => g.raw[i]?

/-- `Grid::get_mut(pos)`: same lookup as `get`, returning the cell the mutable
reference points at. -/
def Grid.get_mut (g : Grid T) (pos : Vector) : Option T :=
  (g.get_index pos).bind fun i => g.raw[i]?

/-- `Grid::set(pos, value)`: `Some(std::mem::replace(self.get_mut(pos)?, value))`.
Returns the old value and the updated grid; out of bounds returns `none` and
the untouched grid.  The inner `none` branch (flat index out of range) is
unreachable for grids satisfying the length invariant. -/
def Grid.set (g : Grid T) (pos : Vector) (value : T) : Option T × Grid T :=
  match g.get_index pos with
  | none => (none, g)
  | some i =>
    match g.raw[i]? with
    | none => (none, g)
    | some old => (some old, { g with raw := g.raw.set i value })

/-- Modelled from the spec: borrowed value iteration (the `iterators` module is
not among the sources).  §4.4 requires the value sequence to yield the elements
in row-major order, which is exactly the order of the flat storage. -/
def Grid.iter (g : Grid T) : List T := g.raw

/-- Modelled from the spec: borrowed position+value iteration (the `iterators`
module is not among the sources).  §4.4 requires each element paired with
exactly the position the position-generator constructor would have used, in
row-major order. -/
def Grid.iter_positions (g : Grid T) : List (Vector × T) :=
  (positions g.width g.height).zip g.raw

/-- Modelled from the spec: consuming value iteration, same order (§4.4). -/
def Grid.into_iter (g : Grid T) : List T := g.raw

/-- Modelled from the spec: consuming position+value iteration, same pairs (§4.4). -/
def Grid.into_iter_positions (g : Grid T) : List (Vector × T) :=
  (positions g.width g.height).zip g.raw

/-- `Grid::map(f)`: pushes `f(value)` for each iterated value, keeping `dim`. -/
def Grid.map (g : Grid T) (f : T → U) : Grid U :=
  { raw := g.iter.map f, dim := g.dim }

/-- `Grid::pos_map(f)`: pushes `f(pos, value)` over `iter_positions`, keeping `dim`. -/
def Grid.pos_map (g : Grid T) (f : Vector → T → U) : Grid U :=
  { raw := g.iter_positions.map fun pv => f pv.1 pv.2, dim := g.dim }

/-- `Grid::map_into(f)`: consuming variant of `map`, same result values. -/
def Grid.map_into (g : Grid T) (f : T → U) : Grid U :=
  { raw := g.into_iter.map f, dim := g.dim }

/-- `Grid::pos_map_into(f)`: consuming variant of `pos_map`, same result values. -/
def Grid.pos_map_into (g : Grid T) (f : Vector → T → U) : Grid U :=
  { raw := g.into_iter_positions.map fun pv => f pv.1 pv.2, dim := g.dim }

/-- Result of the panicking `Index`/`IndexMut` operators: either the addressed
cell, or a panic whose diagnostic message interpolates the grid's dimensions
and the offending position ("position out of bounds: the dimensions are {dim}
but the position is {pos}"), both carried by the `panicked` constructor. -/
inductive IndexResult (T : Type) where
  | ok : T → IndexResult T
  | panicked : Vector → Vector → IndexResult T
deriving DecidableEq

/-- `impl Index<Vector> for Grid<T>`: `self.get(pos)` or panic with the
dimensions and the position. -/
def Grid.index (g : Grid T) (pos : Vector) : IndexResult T :=
  match g.get pos with
  | some r => .ok r
  | none => .panicked g.dim pos

/-- `impl IndexMut<Vector> for Grid<T>`: `self.get_mut(pos)` or panic with the
dimensions and the position. -/
def Grid.index_mut (g : Grid T) (pos : Vector) : IndexResult T :=
  match g.get_mut pos with
  | some r => .ok r
  | none => .panicked g.dim pos

/-- `" ".repeat(n)` and friends. -/
def repeatStr (s : String) (n : Nat) : String := String.join (List.replicate n s)

/-- One cell of the `Debug` rendering: the panicking index `strings[v(x, y)]`,
then `" ".repeat(longest - s.len())` (whose `usize` subtraction would itself
panic on underflow, hence the guard), the cell text, and a comma unless the
cell ends its row. -/
def Grid.fmt_cell (strings : Grid String) (longest : Nat) (pos : Vector) : Option String :=
  match strings.index pos with
  | .panicked _ _ => none
  | .ok s =>
    if s.length ≤ longest then
      some (repeatStr " " (longest - s.length) ++ s ++
        (if pos.x ≠ strings.width - 1 then "," else ""))
    else none

/-- One row of the `Debug` rendering: the inner `for x in 0..width` loop. -/
def Grid.fmt_row (strings : Grid String) (longest : Nat) (y : Int) : Option String :=
  (List.range strings.width.toNat).foldlM
    (fun acc (x : Nat) =>
      (strings.fmt_cell longest { x := (x : Int), y := y }).map fun c => acc ++ c) ""

/-- The body of the `Debug` implementation after `let strings = self.map(ToString::to_string)`:
take the longest stringified length with `.max().unwrap()` (which panics on an
empty grid), write the `"{width}x{height}"` header, then every row, with a
newline after each row but the last. -/
def Grid.fmt_body (strings : Grid String) : Option String :=
  match (strings.iter.map String.length).max? with
  | none => none
  | some longest =>
    (List.range strings.height.toNat).foldlM
      (fun acc (y : Nat) =>
        (strings.fmt_row longest (y : Int)).map fun r =>
          acc ++ r ++ (if (y : Int) ≠ strings.height - 1 then "\n" else ""))
      (toString strings.width ++ "x" ++ toString strings.height ++ "\n")

/-- `impl fmt::Debug for Grid<T>`: stringify every cell via `map`, then render.
`toStr` stands for the `Display` implementation of `T`. -/
def Grid.fmt (g : Grid T) (toStr : T → String) : Option String :=
  (g.map toStr).fmt_body

/-- The representation invariant every reachable `Grid` maintains
(`raw` holds exactly `width * height` elements); the fields are private in
Rust, so every grid a caller can observe satisfies it. -/
def Grid.WF (g : Grid T) : Prop := g.raw.length = g.width.toNat * g.height.toNat

/-! ### Helper lemmas -/

theorem index_lt {x w y h : Nat} (hx : x < w) (hy : y < h) : x + y * w < w * h :=
  calc x + y * w < w + y * w := Nat.add_lt_add_right hx _
    _ = (y + 1) * w := by ring
    _ ≤ h * w := Nat.mul_le_mul_right w hy
    _ = w * h := Nat.mul_comm h w

theorem posList_succ (w h : Nat) :
    posList w (h + 1) =
      posList w h ++
        ((List.range w).map fun (x : Nat) => ({ x := (x : Int), y := (h : Int) } : Vector)) := by
  unfold posList
  rw [List.range_succ h, List.flatMap_append]
  simp

theorem posList_length (w h : Nat) : (posList w h).length = w * h := by
  induction h with
  | zero => simp [posList]
  | succ n ih =>
    rw [posList_succ, List.length_append, ih, List.length_map, List.length_range]
    ring

theorem posList_getElem {w h x y : Nat} (hx : x < w) (hy : y < h) :
    (posList w h)[(x + y * w)]? = some ({ x := (x : Int), y := (y : Int) } : Vector) := by
  induction h with
  | zero => exact absurd hy (Nat.not_lt_zero y)
  | succ n ih =>
    rw [posList_succ, List.getElem?_append]
    rcases Nat.lt_or_ge y n with hlt | hge
    · rw [if_pos (by rw [posList_length]; exact index_lt hx hlt)]
      exact ih hlt
    · have hy' : y = n := by omega
      subst hy'
      have hlen : (posList w y).length = w * y := posList_length w y
      rw [if_neg (by rw [hlen, Nat.mul_comm w y]; omega)]
      have hsub : x + y * w - (posList w y).length = x := by
        rw [hlen, Nat.mul_comm w y]; omega
      rw [hsub, List.getElem?_map, List.getElem?_range hx, Option.map_some']

theorem getElem?_zip_of_some {α β : Type} {l₁ : List α} {l₂ : List β} {i : Nat} {a : α} {b : β}
    (h₁ : l₁[i]? = some a) (h₂ : l₂[i]? = some b) : (l₁.zip l₂)[i]? = some (a, b) := by
  induction l₁ generalizing l₂ i with
  | nil => simp at h₁
  | cons x xs ih =>
    cases l₂ with
    | nil => simp at h₂
    | cons z zs =>
      cases i with
      | zero => simp_all
      | succ n =>
        simp only [List.zip_cons_cons, List.getElem?_cons_succ] at *
        exact ih h₁ h₂

theorem foldlM_option_isSome {α β : Type} {f : β → α → Option β} {l : List α}
    (h : ∀ a ∈ l, ∀ b, (f b a).isSome = true) (b : β) :
    (l.foldlM f b).isSome = true := by
  induction l generalizing b with
  | nil => rfl
  | cons x xs ih =>
    rw [List.foldlM_cons]
    have hx := h x (List.mem_cons_self x xs) b
    obtain ⟨b', hb'⟩ := Option.isSome_iff_exists.mp hx
    rw [hb']
    exact ih (fun a ha c => h a (List.mem_cons_of_mem x ha) c) b'

theorem max?_ge {xs : List Nat} {a : Nat} (h : xs.max? = some a) : ∀ b ∈ xs, b ≤ a :=
  ((List.max?_eq_some_iff (fun a => Nat.le_refl a) (fun a b => max_choice a b)
    (fun _ _ _ => Nat.max_le)).mp h).2

theorem size_eq_some_iff {w h : Int} {s : Nat} :
    size w h = some s ↔
      0 < w ∧ 0 < h ∧ s = w.toNat * h.toNat ∧ w.toNat * h.toNat ≤ usizeMax := by
  constructor
  · intro hs
    unfold size at hs
    split_ifs at hs with h1 h2
    exact ⟨by omega, by omega, (Option.some_inj.mp hs).symm, h2⟩
  · rintro ⟨hw, hh, rfl, hle⟩
    unfold size
    rw [if_neg (by omega), if_pos hle]

theorem positions_length (w h : Int) : (positions w h).length = w.toNat * h.toNat :=
  posList_length w.toNat h.toNat

theorem positions_getElem {w h : Int} {pos : Vector} (hx0 : 0 ≤ pos.x) (hxw : pos.x < w)
    (hy0 : 0 ≤ pos.y) (hyh : pos.y < h) :
    (positions w h)[(pos.x.toNat + pos.y.toNat * w.toNat)]? = some pos := by
  have hx : pos.x.toNat < w.toNat := by omega
  have hy : pos.y.toNat < h.toNat := by omega
  unfold positions
  rw [posList_getElem hx hy, Int.toNat_of_nonneg hx0, Int.toNat_of_nonneg hy0]

theorem Grid.new_spec {w h : Int} {v : T} {g : Grid T} (hg : Grid.new w h v = some g) :
    g.WF ∧ g.dim = ⟨w, h⟩ ∧ 0 < g.width ∧ 0 < g.height := by
  obtain ⟨s, hs, rfl⟩ := Option.map_eq_some'.mp hg
  obtain ⟨hw, hh, hseq, -⟩ := size_eq_some_iff.mp hs
  exact ⟨by simp [Grid.WF, Grid.width, Grid.height, hseq], rfl, hw, hh⟩

theorem Grid.defaultGrid_spec {w h : Int} {d : T} {g : Grid T}
    (hg : Grid.defaultGrid w h d = some g) :
    g.WF ∧ g.dim = ⟨w, h⟩ ∧ 0 < g.width ∧ 0 < g.height := by
  obtain ⟨s, hs, rfl⟩ := Option.map_eq_some'.mp hg
  obtain ⟨hw, hh, hseq, -⟩ := size_eq_some_iff.mp hs
  exact ⟨by simp [Grid.WF, Grid.width, Grid.height, hseq], rfl, hw, hh⟩

theorem Grid.from_simple_fn_spec {w h : Int} {f : Nat → T} {g : Grid T}
    (hg : Grid.from_simple_fn w h f = some g) :
    g.WF ∧ g.dim = ⟨w, h⟩ ∧ 0 < g.width ∧ 0 < g.height := by
  obtain ⟨s, hs, rfl⟩ := Option.map_eq_some'.mp hg
  obtain ⟨hw, hh, hseq, -⟩ := size_eq_some_iff.mp hs
  exact ⟨by simp [Grid.WF, Grid.width, Grid.height, hseq], rfl, hw, hh⟩

theorem Grid.from_fn_spec {w h : Int} {f : Vector → T} {g : Grid T}
    (hg : Grid.from_fn w h f = some g) :
    g.WF ∧ g.dim = ⟨w, h⟩ ∧ 0 < g.width ∧ 0 < g.height := by
  obtain ⟨s, hs, rfl⟩ := Option.map_eq_some'.mp hg
  obtain ⟨hw, hh, -, -⟩ := size_eq_some_iff.mp hs
  refine ⟨?_, rfl, hw, hh⟩
  simp [Grid.WF, Grid.width, Grid.height, positions_length]

theorem Grid.from_iter_eq_some {w h : Int} {values : List T} {g : Grid T} :
    Grid.from_iter w h values = some g ↔
      ∃ s, size w h = some s ∧ s ≤ values.length ∧
        g = { raw := values.take s, dim := ⟨w, h⟩ } := by
  constructor
  · intro hg
    unfold Grid.from_iter at hg
    obtain ⟨s, hs, hif⟩ := Option.bind_eq_some.mp hg
    split_ifs at hif with hle
    exact ⟨s, hs, hle, (Option.some_inj.mp hif).symm⟩
  · rintro ⟨s, hs, hle, rfl⟩
    unfold Grid.from_iter
    rw [hs, Option.some_bind, if_pos hle]

theorem Grid.from_iter_spec {w h : Int} {values : List T} {g : Grid T}
    (hg : Grid.from_iter w h values = some g) :
    g.WF ∧ g.dim = ⟨w, h⟩ ∧ 0 < g.width ∧ 0 < g.height ∧
      g.raw = values.take (w.toNat * h.toNat) := by
  obtain ⟨s, hs, hle, rfl⟩ := Grid.from_iter_eq_some.mp hg
  obtain ⟨hw, hh, hseq, -⟩ := size_eq_some_iff.mp hs
  subst hseq
  refine ⟨?_, rfl, hw, hh, rfl⟩
  simp [Grid.WF, Grid.width, Grid.height, List.length_take]
  omega

theorem Grid.from_nested_nil :
    Grid.from_nested_iter ([] : List (List T)) = some { raw := [], dim := ⟨0, 0⟩ } := rfl

theorem Grid.from_nested_cons (first : List T) (rest : List (List T)) :
    Grid.from_nested_iter (first :: rest) =
      if rest.all (fun r => r.length = first.length) then
        some { raw := (first :: rest).flatten,
               dim := ⟨(first.length : Int), (rest.length : Int) + 1⟩ }
      else none := rfl

theorem Grid.from_nested_cons_eq_some {first : List T} {rest : List (List T)} {g : Grid T} :
    Grid.from_nested_iter (first :: rest) = some g ↔
      (∀ r ∈ rest, r.length = first.length) ∧
      g = { raw := (first :: rest).flatten,
            dim := ⟨(first.length : Int), (rest.length : Int) + 1⟩ } := by
  rw [Grid.from_nested_cons]
  split_ifs with hall
  · simp only [List.all_eq_true, decide_eq_true_eq] at hall
    simp only [Option.some_inj]
    exact ⟨fun hg => ⟨hall, hg.symm⟩, fun hp => hp.2.symm⟩
  · simp only [List.all_eq_true, decide_eq_true_eq] at hall
    constructor
    · intro hg; exact absurd hg (by simp)
    · rintro ⟨hall', -⟩; exact absurd hall' hall

theorem Grid.from_nested_cons_spec {first : List T} {rest : List (List T)} {g : Grid T}
    (hg : Grid.from_nested_iter (first :: rest) = some g) :
    g.WF ∧ g.width = (first.length : Int) ∧ g.height = (rest.length : Int) + 1 := by
  obtain ⟨hall, rfl⟩ := Grid.from_nested_cons_eq_some.mp hg
  refine ⟨?_, rfl, rfl⟩
  have hrepl : rest.map List.length = List.replicate rest.length first.length := by
    rw [List.eq_replicate_iff]
    refine ⟨by simp, ?_⟩
    intro b hb
    obtain ⟨r, hr, rfl⟩ := List.mem_map.mp hb
    exact hall r hr
  show ((first :: rest).flatten).length = _
  rw [List.length_flatten, List.map_cons, List.sum_cons, hrepl, List.sum_replicate,
    smul_eq_mul]
  have h1 : ((first.length : Int)).toNat = first.length := by omega
  have h2 : (((rest.length : Int)) + 1).toNat = rest.length + 1 := by omega
  simp only [Grid.width, Grid.height]
  rw [h1, h2]
  ring

theorem Grid.map_dim (g : Grid T) (f : T → U) : (g.map f).dim = g.dim := rfl

theorem Grid.pos_map_dim (g : Grid T) (f : Vector → T → U) : (g.pos_map f).dim = g.dim := rfl

theorem Grid.in_bounds_iff (g : Grid T) (pos : Vector) :
    g.in_bounds pos = true ↔ 0 ≤ pos.x ∧ pos.x < g.width ∧ 0 ≤ pos.y ∧ pos.y < g.height := by
  simp [Grid.in_bounds, and_assoc]

theorem Grid.get_index_of_in_bounds (g : Grid T) (pos : Vector) (hb : g.in_bounds pos = true) :
    g.get_index pos = some (pos.x.toNat + pos.y.toNat * g.width.toNat) := by
  simp [Grid.get_index, hb]

theorem Grid.get_index_of_oob (g : Grid T) (pos : Vector) (hb : g.in_bounds pos = false) :
    g.get_index pos = none := by
  simp [Grid.get_index, hb]

theorem Grid.flat_index_lt (g : Grid T) (hwf : g.WF) (pos : Vector)
    (hb : g.in_bounds pos = true) :
    pos.x.toNat + pos.y.toNat * g.width.toNat < g.raw.length := by
  obtain ⟨hx0, hxw, hy0, hyh⟩ := (g.in_bounds_iff pos).mp hb
  rw [hwf]
  exact index_lt (by omega) (by omega)

theorem Grid.get_eq_getElem (g : Grid T) (pos : Vector) (hb : g.in_bounds pos = true) :
    g.get pos = g.raw[(pos.x.toNat + pos.y.toNat * g.width.toNat)]? := by
  simp [Grid.get, g.get_index_of_in_bounds pos hb]

theorem Grid.get_isSome (g : Grid T) (hwf : g.WF) (pos : Vector)
    (hb : g.in_bounds pos = true) : (g.get pos).isSome = true := by
  rw [g.get_eq_getElem pos hb]
  rw [Option.isSome_iff_ne_none]
  intro hnone
  have := List.getElem?_eq_none_iff.mp hnone
  have := g.flat_index_lt hwf pos hb
  omega

theorem Grid.get_of_oob (g : Grid T) (pos : Vector) (hb : g.in_bounds pos = false) :
    g.get pos = none := by
  simp [Grid.get, g.get_index_of_oob pos hb]

theorem Grid.get_mut_eq_get (g : Grid T) (pos : Vector) : g.get_mut pos = g.get pos := rfl

theorem Grid.set_of_oob (g : Grid T) (pos : Vector) (v : T) (hb : g.in_bounds pos = false) :
    g.set pos v = (none, g) := by
  simp [Grid.set, g.get_index_of_oob pos hb]

theorem Grid.set_of_in_bounds (g : Grid T) (hwf : g.WF) (pos : Vector) (v : T)
    (hb : g.in_bounds pos = true) :
    (g.set pos v).1 = g.get pos ∧
    (g.set pos v).2 =
      { g with raw := g.raw.set (pos.x.toNat + pos.y.toNat * g.width.toNat) v } := by
  have hi := g.get_index_of_in_bounds pos hb
  have hlt := g.flat_index_lt hwf pos hb
  obtain ⟨old, hold⟩ := Option.isSome_iff_exists.mp (g.get_isSome hwf pos hb)
  have hraw : g.raw[(pos.x.toNat + pos.y.toNat * g.width.toNat)]? = some old := by
    rw [← g.get_eq_getElem pos hb]; exact hold
  constructor
  · simp [Grid.set, hi, hraw, hold]
  · simp [Grid.set, hi, hraw]

theorem Grid.map_raw_length (g : Grid T) (f : T → U) : (g.map f).raw.length = g.raw.length :=
  List.length_map g.raw f

theorem Grid.map_wf (g : Grid T) (hwf : g.WF) (f : T → U) : (g.map f).WF := by
  show (g.raw.map f).length = _
  rw [List.length_map]
  exact hwf


theorem Grid.pos_map_wf (g : Grid T) (hwf : g.WF) (f : Vector → T → U) : (g.pos_map f).WF := by
  show (((positions g.width g.height).zip g.raw).map _).length = g.width.toNat * g.height.toNat
  rw [List.length_map, List.length_zip, positions_length, hwf]
  omega

theorem Grid.map_into_wf (g : Grid T) (hwf : g.WF) (f : T → U) : (g.map_into f).WF :=
  g.map_wf hwf f

theorem Grid.pos_map_into_wf (g : Grid T) (hwf : g.WF) (f : Vector → T → U) :
    (g.pos_map_into f).WF := g.pos_map_wf hwf f

theorem Grid.pos_map_get (g : Grid T) (hwf : g.WF) (f : Vector → T → U) (pos : Vector)
    (hb : g.in_bounds pos = true) :
    (g.pos_map f).get pos = (g.get pos).map (f pos) := by
  obtain ⟨hx0, hxw, hy0, hyh⟩ := (g.in_bounds_iff pos).mp hb
  have hb' : (g.pos_map f).in_bounds pos = true := hb
  obtain ⟨t, ht⟩ := Option.isSome_iff_exists.mp (g.get_isSome hwf pos hb)
  have htraw : g.raw[(pos.x.toNat + pos.y.toNat * g.width.toNat)]? = some t := by
    rw [← g.get_eq_getElem pos hb]; exact ht
  have hposl : (positions g.width g.height)[(pos.x.toNat + pos.y.toNat * g.width.toNat)]? =
      some pos := positions_getElem hx0 hxw hy0 hyh
  rw [(g.pos_map f).get_eq_getElem pos hb']
  show (((positions g.width g.height).zip g.raw).map
      fun pv => f pv.1 pv.2)[(pos.x.toNat + pos.y.toNat * g.width.toNat)]? = _
  rw [List.getElem?_map, getElem?_zip_of_some hposl htraw, Option.map_some', ht,
    Option.map_some']

theorem Grid.get_set_self (g : Grid T) (hwf : g.WF) (pos : Vector) (v : T)
    (hb : g.in_bounds pos = true) : (g.set pos v).2.get pos = some v := by
  obtain ⟨-, h2⟩ := g.set_of_in_bounds hwf pos v hb
  rw [h2]
  have hb' : (Grid.mk (g.raw.set (pos.x.toNat + pos.y.toNat * g.width.toNat) v) g.dim :
      Grid T).in_bounds pos = true := hb
  rw [Grid.get_eq_getElem _ pos hb']
  have hlt := g.flat_index_lt hwf pos hb
  show (g.raw.set (pos.x.toNat + pos.y.toNat * g.width.toNat) v)[
    (pos.x.toNat + pos.y.toNat * g.width.toNat)]? = some v
  rw [List.getElem?_set_self]
  exact hlt

theorem Grid.fmt_cell_isSome (strings : Grid String) (hwf : strings.WF) (longest : Nat)
    (hmax : ∀ s ∈ strings.raw, s.length ≤ longest) (pos : Vector)
    (hb : strings.in_bounds pos = true) :
    (strings.fmt_cell longest pos).isSome = true := by
  obtain ⟨t, ht⟩ := Option.isSome_iff_exists.mp (strings.get_isSome hwf pos hb)
  have hidx : strings.index pos = .ok t := by simp [Grid.index, ht]
  have htmem : t ∈ strings.raw := by
    rw [strings.get_eq_getElem pos hb] at ht
    exact List.getElem?_mem ht
  simp [Grid.fmt_cell, hidx, hmax t htmem]

theorem Grid.fmt_row_isSome (strings : Grid String) (hwf : strings.WF) (longest : Nat)
    (hmax : ∀ s ∈ strings.raw, s.length ≤ longest) (y : Int)
    (hy0 : 0 ≤ y) (hyh : y < strings.height) :
    (strings.fmt_row longest y).isSome = true := by
  unfold Grid.fmt_row
  apply foldlM_option_isSome
  intro x hx acc
  have hxlt := List.mem_range.mp hx
  have hxw : (x : Int) < strings.width := by omega
  have hb : strings.in_bounds { x := (x : Int), y := y } = true :=
    (strings.in_bounds_iff _).mpr ⟨Int.natCast_nonneg x, hxw, hy0, hyh⟩
  obtain ⟨c, hc⟩ := Option.isSome_iff_exists.mp
    (strings.fmt_cell_isSome hwf longest hmax { x := (x : Int), y := y } hb)
  simp [hc]

theorem Grid.fmt_body_isSome (strings : Grid String) (hwf : strings.WF)
    (hne : strings.raw ≠ []) : strings.fmt_body.isSome = true := by
  have hne' : strings.iter.map String.length ≠ [] := by
    simp [Grid.iter, hne]
  obtain ⟨longest, hl⟩ : ∃ a, (strings.iter.map String.length).max? = some a := by
    cases hmq : (strings.iter.map String.length).max? with
    | none => exact absurd (List.max?_eq_none_iff.mp hmq) hne'
    | some a => exact ⟨a, rfl⟩
  have hmax : ∀ s ∈ strings.raw, s.length ≤ longest := by
    intro s hs
    exact max?_ge hl _ (List.mem_map_of_mem String.length hs)
  unfold Grid.fmt_body
  rw [hl]
  apply foldlM_option_isSome
  intro y hy acc
  have hylt := List.mem_range.mp hy
  have hyh : (y : Int) < strings.height := by omega
  obtain ⟨r, hr⟩ := Option.isSome_iff_exists.mp
    (strings.fmt_row_isSome hwf longest hmax (y : Int) (by omega) hyh)
  simp [hr]

theorem Grid.fmt_none_of_empty (g : Grid T) (toStr : T → String) (h : g.raw = []) :
    g.fmt toStr = none := by
  unfold Grid.fmt Grid.fmt_body
  simp [Grid.map, Grid.iter, h]

theorem Grid.fmt_isSome (g : Grid T) (hwf : g.WF) (toStr : T → String) (hne : g.raw ≠ []) :
    (g.fmt toStr).isSome = true := by
  apply (g.map toStr).fmt_body_isSome (g.map_wf hwf toStr)
  simp [Grid.map, Grid.iter, hne]

/-! ### Claims -/

/-- Claim C1: the flat-sequence constructor `from_iter(width, height, values)`
consumes exactly `width*height` values of the source in row-major order, so
the cell at `(x, y)` holds the `(x + y*width)`-th value; trailing extra values
are ignored (construction succeeds whenever the source is long enough); a
source with fewer than `width*height` values is a fatal contract violation;
and concretely `from_iter(2, 3, [1,2,3,4,5,6])` has cell `(1,0) = 2`,
cell `(0,2) = 5` and cell `(1,2) = 6`. -/
theorem C1_from_iter_row_major :
    (∀ (T : Type) (w h : Int) (values : List T) (g : Grid T),
      Grid.from_iter w h values = some g →
        g.raw = values.take (w.toNat * h.toNat) ∧
        ∀ pos : Vector, g.in_bounds pos = true →
          g.get pos = values[(pos.x.toNat + pos.y.toNat * w.toNat)]?) ∧
    (∀ (T : Type) (w h : Int) (values : List T) (s : Nat),
      size w h = some s → s ≤ values.length →
        (Grid.from_iter w h values).isSome = true) ∧
    (∀ (T : Type) (w h : Int) (values : List T) (s : Nat),
      size w h = some s → values.length < s → Grid.from_iter w h values = none) ∧
    ((Grid.from_iter 2 3 [1, 2, 3, 4, 5, 6]).bind (fun g => g.get ⟨1, 0⟩) = some 2 ∧
     (Grid.from_iter 2 3 [1, 2, 3, 4, 5, 6]).bind (fun g => g.get ⟨0, 2⟩) = some 5 ∧
     (Grid.from_iter 2 3 [1, 2, 3, 4, 5, 6]).bind (fun g => g.get ⟨1, 2⟩) = some 6) := by
  refine ⟨?_, ?_, ?_, by decide, by decide, by decide⟩
  · intro T w h values g hg
    obtain ⟨hwf, hdim, hw, hh, hraw⟩ := Grid.from_iter_spec hg
    have hwidth : g.width = w := by rw [Grid.width, hdim]
    have hheight : g.height = h := by rw [Grid.height, hdim]
    refine ⟨hraw, ?_⟩
    intro pos hb
    have hi : pos.x.toNat + pos.y.toNat * w.toNat < w.toNat * h.toNat := by
      have h1 := g.flat_index_lt hwf pos hb
      rw [hwf, hwidth, hheight] at h1
      exact h1
    rw [g.get_eq_getElem pos hb, hraw, hwidth]
    simp [List.getElem?_take, hi]
  · intro T w h values s hs hle
    rw [Grid.from_iter_eq_some.mpr ⟨s, hs, hle, rfl⟩]
    rfl
  · intro T w h values s hs hlt
    unfold Grid.from_iter
    rw [hs, Option.some_bind, if_neg (by omega)]

/-- Witness for C1 at concrete inputs: a long-enough source of 6 values
succeeds for a 2x3 grid, a source of 1 value fails, and the constructed grid
reads back the row-major values. -/
theorem C1_from_iter_row_major_witness :
    (Grid.from_iter 2 3 [10, 20, 30, 40, 50, 60] : Option (Grid Nat)).isSome = true ∧
    Grid.from_iter 2 3 ([1] : List Nat) = none ∧
    (Grid.mk [10, 20, 30, 40, 50, 60] ⟨2, 3⟩ : Grid Nat).get ⟨1, 1⟩ =
      [10, 20, 30, 40, 50, 60][(3 : Nat)]? :=
  ⟨C1_from_iter_row_major.2.1 Nat 2 3 [10, 20, 30, 40, 50, 60] 6 (by decide) (by decide),
   C1_from_iter_row_major.2.2.1 Nat 2 3 [1] 6 (by decide) (by decide),
   (C1_from_iter_row_major.1 Nat 2 3 [10, 20, 30, 40, 50, 60]
      (Grid.mk [10, 20, 30, 40, 50, 60] ⟨2, 3⟩) (by decide)).2 ⟨1, 1⟩ (by decide)⟩

/-- Claim C2: `in_bounds(pos)` is true iff `0 ≤ x < width` and
`0 ≤ y < height`; and `get`, `get_mut`, `set` return an absent result exactly
when `pos` is out of bounds, and a present result (the addressed cell / the
old value of the addressed cell) exactly when `pos` is in bounds. -/
theorem C2_bounds_checked_access :
    (∀ (T : Type) (g : Grid T) (pos : Vector),
      g.in_bounds pos = true ↔
        0 ≤ pos.x ∧ pos.x < g.width ∧ 0 ≤ pos.y ∧ pos.y < g.height) ∧
    (∀ (T : Type) (g : Grid T), g.WF → ∀ (pos : Vector) (v : T),
      (g.in_bounds pos = false →
        g.get pos = none ∧ g.get_mut pos = none ∧ (g.set pos v).1 = none) ∧
      (g.in_bounds pos = true →
        (g.get pos).isSome = true ∧
        g.get pos = g.raw[(pos.x.toNat + pos.y.toNat * g.width.toNat)]? ∧
        g.get_mut pos = g.get pos ∧
        (g.set pos v).1 = g.get pos)) := by
  refine ⟨fun T g pos => g.in_bounds_iff pos, ?_⟩
  intro T g hwf pos v
  constructor
  · intro hb
    have h := g.get_of_oob pos hb
    exact ⟨h, by rw [Grid.get_mut_eq_get]; exact h, by rw [g.set_of_oob pos v hb]⟩
  · intro hb
    exact ⟨g.get_isSome hwf pos hb, g.get_eq_getElem pos hb, g.get_mut_eq_get pos,
      (g.set_of_in_bounds hwf pos v hb).1⟩

/-- Witness for C2 on a concrete 2x1 grid: in-bounds and out-of-bounds
accesses behave as the claim states. -/
theorem C2_bounds_checked_access_witness :
    ((Grid.mk [10, 20] ⟨2, 1⟩ : Grid Nat).in_bounds ⟨1, 0⟩ = true ↔
      0 ≤ (1 : Int) ∧ (1 : Int) < (Grid.mk [10, 20] ⟨2, 1⟩ : Grid Nat).width ∧
      0 ≤ (0 : Int) ∧ (0 : Int) < (Grid.mk [10, 20] ⟨2, 1⟩ : Grid Nat).height) ∧
    ((Grid.mk [10, 20] ⟨2, 1⟩ : Grid Nat).get ⟨5, 0⟩ = none ∧
     (Grid.mk [10, 20] ⟨2, 1⟩ : Grid Nat).get_mut ⟨5, 0⟩ = none ∧
     ((Grid.mk [10, 20] ⟨2, 1⟩ : Grid Nat).set ⟨5, 0⟩ 9).1 = none) :=
  ⟨C2_bounds_checked_access.1 Nat (Grid.mk [10, 20] ⟨2, 1⟩) ⟨1, 0⟩,
   (C2_bounds_checked_access.2 Nat (Grid.mk [10, 20] ⟨2, 1⟩) (by rfl) ⟨5, 0⟩ 9).1
     (by decide)⟩

/-- Counterexample to C3 as stated: the nested-row constructor applied to ONE
empty row (not zero rows) succeeds and produces a grid with width 0 and
height 1, which neither has positive dimensions nor is the claimed sole
exception with dimensions (0, 0). -/
theorem C3_invariants_counterexample :
    (Grid.from_nested_iter [([] : List Nat)]).isSome = true ∧
    (Grid.from_nested_iter [([] : List Nat)]).map Grid.width = some 0 ∧
    (Grid.from_nested_iter [([] : List Nat)]).map Grid.height = some 1 := by
  decide

/-- Claim C3 (amended): every grid produced by a constructor or transform
satisfies `elements.length = width * height`; the dimension-taking
constructors produce strictly positive dimensions; the nested-row constructor
produces width = first-row length and height = row count, hence positive
dimensions whenever there is at least one row and the first row is non-empty,
the (0, 0) grid from zero rows, and width-0 grids from empty rows; and the
four map transforms preserve the source's width and height. -/
theorem C3_invariants_amended :
    (∀ (T : Type) (w h : Int) (v : T) (g : Grid T),
      Grid.new w h v = some g → g.WF ∧ 0 < g.width ∧ 0 < g.height) ∧
    (∀ (T : Type) (w h : Int) (d : T) (g : Grid T),
      Grid.defaultGrid w h d = some g → g.WF ∧ 0 < g.width ∧ 0 < g.height) ∧
    (∀ (T : Type) (w h : Int) (f : Nat → T) (g : Grid T),
      Grid.from_simple_fn w h f = some g → g.WF ∧ 0 < g.width ∧ 0 < g.height) ∧
    (∀ (T : Type) (w h : Int) (f : Vector → T) (g : Grid T),
      Grid.from_fn w h f = some g → g.WF ∧ 0 < g.width ∧ 0 < g.height) ∧
    (∀ (T : Type) (w h : Int) (values : List T) (g : Grid T),
      Grid.from_iter w h values = some g → g.WF ∧ 0 < g.width ∧ 0 < g.height) ∧
    (∀ (T : Type) (rows : List (List T)) (g : Grid T),
      Grid.from_nested_iter rows = some g →
        g.WF ∧
        (rows = [] → g.dim = ⟨0, 0⟩) ∧
        ∀ first rest, rows = first :: rest →
          g.width = (first.length : Int) ∧ g.height = (rest.length : Int) + 1 ∧
          (first ≠ [] → 0 < g.width ∧ 0 < g.height)) ∧
    (∀ (T U : Type) (g : Grid T) (f : T → U),
      (g.map f).width = g.width ∧ (g.map f).height = g.height ∧
      (g.WF → (g.map f).WF)) ∧
    (∀ (T U : Type) (g : Grid T) (f : Vector → T → U),
      (g.pos_map f).width = g.width ∧ (g.pos_map f).height = g.height ∧
      (g.WF → (g.pos_map f).WF)) ∧
    (∀ (T U : Type) (g : Grid T) (f : T → U),
      (g.map_into f).width = g.width ∧ (g.map_into f).height = g.height ∧
      (g.WF → (g.map_into f).WF)) ∧
    (∀ (T U : Type) (g : Grid T) (f : Vector → T → U),
      (g.pos_map_into f).width = g.width ∧ (g.pos_map_into f).height = g.height ∧
      (g.WF → (g.pos_map_into f).WF)) := by
  refine ⟨?_, ?_, ?_, ?_, ?_, ?_, ?_, ?_, ?_, ?_⟩
  · intro T w h v g hg
    obtain ⟨hwf, hdim, hw, hh⟩ := Grid.new_spec hg
    exact ⟨hwf, hw, hh⟩
  · intro T w h d g hg
    obtain ⟨hwf, hdim, hw, hh⟩ := Grid.defaultGrid_spec hg
    exact ⟨hwf, hw, hh⟩
  · intro T w h f g hg
    obtain ⟨hwf, hdim, hw, hh⟩ := Grid.from_simple_fn_spec hg
    exact ⟨hwf, hw, hh⟩
  · intro T w h f g hg
    obtain ⟨hwf, hdim, hw, hh⟩ := Grid.from_fn_spec hg
    exact ⟨hwf, hw, hh⟩
  · intro T w h values g hg
    obtain ⟨hwf, hdim, hw, hh, -⟩ := Grid.from_iter_spec hg
    exact ⟨hwf, hw, hh⟩
  · intro T rows g hg
    cases rows with
    | nil =>
      rw [Grid.from_nested_nil] at hg
      cases Option.some_inj.mp hg
      exact ⟨rfl, fun _ => rfl, fun first rest h => nomatch h⟩
    | cons first rest =>
      obtain ⟨hwf, hw, hh⟩ := Grid.from_nested_cons_spec hg
      refine ⟨hwf, fun h => absurd h (List.cons_ne_nil first rest), ?_⟩
      intro first' rest' heq
      injection heq with h1 h2
      subst h1
      subst h2
      refine ⟨hw, hh, ?_⟩
      intro hne
      have : 0 < first.length := List.length_pos.mpr hne
      constructor
      · rw [hw]; exact_mod_cast this
      · rw [hh]; omega
  · intro T U g f
    exact ⟨rfl, rfl, fun hwf => g.map_wf hwf f⟩
  · intro T U g f
    exact ⟨rfl, rfl, fun hwf => g.pos_map_wf hwf f⟩
  · intro T U g f
    exact ⟨rfl, rfl, fun hwf => g.map_into_wf hwf f⟩
  · intro T U g f
    exact ⟨rfl, rfl, fun hwf => g.pos_map_into_wf hwf f⟩

/-- Witness for C3 (amended) at concrete inputs: a 2x3 `new` grid and the
nested construction from two rows of three. -/
theorem C3_invariants_amended_witness :
    ((Grid.mk (List.replicate 6 (0 : Nat)) ⟨2, 3⟩ : Grid Nat).WF ∧
      0 < (Grid.mk (List.replicate 6 (0 : Nat)) ⟨2, 3⟩ : Grid Nat).width ∧
      0 < (Grid.mk (List.replicate 6 (0 : Nat)) ⟨2, 3⟩ : Grid Nat).height) ∧
    ((Grid.mk [1, 2, 3, 4, 5, 6] ⟨3, 2⟩ : Grid Nat).WF ∧
      ((([[1, 2, 3], [4, 5, 6]] : List (List Nat)) = []) →
        (Grid.mk [1, 2, 3, 4, 5, 6] ⟨3, 2⟩ : Grid Nat).dim = ⟨0, 0⟩) ∧
      ∀ first rest, ([[1, 2, 3], [4, 5, 6]] : List (List Nat)) = first :: rest →
        (Grid.mk [1, 2, 3, 4, 5, 6] ⟨3, 2⟩ : Grid Nat).width = (first.length : Int) ∧
        (Grid.mk [1, 2, 3, 4, 5, 6] ⟨3, 2⟩ : Grid Nat).height = (rest.length : Int) + 1 ∧
        (first ≠ [] →
          0 < (Grid.mk [1, 2, 3, 4, 5, 6] ⟨3, 2⟩ : Grid Nat).width ∧
          0 < (Grid.mk [1, 2, 3, 4, 5, 6] ⟨3, 2⟩ : Grid Nat).height)) :=
  ⟨C3_invariants_amended.1 Nat 2 3 0 (Grid.mk (List.replicate 6 0) ⟨2, 3⟩) (by decide),
   C3_invariants_amended.2.2.2.2.2.1 Nat [[1, 2, 3], [4, 5, 6]]
     (Grid.mk [1, 2, 3, 4, 5, 6] ⟨3, 2⟩) (by decide)⟩

/-- Claim C4: for every in-bounds position, `set(pos, v)` returns the value
the cell previously held, and a subsequent `get(pos)` returns `v`. -/
theorem C4_set_get_round_trip (T : Type) (g : Grid T) (pos : Vector) (v : T)
    (hwf : g.WF) (hb : g.in_bounds pos = true) :
    (g.set pos v).1 = g.get pos ∧ ((g.set pos v).1).isSome = true ∧
    (g.set pos v).2.get pos = some v := by
  obtain ⟨h1, -⟩ := g.set_of_in_bounds hwf pos v hb
  exact ⟨h1, by rw [h1]; exact g.get_isSome hwf pos hb,
    g.get_set_self hwf pos v hb⟩

/-- Witness for C4 on a concrete 2x1 grid at position (1, 0). -/
theorem C4_set_get_round_trip_witness :
    ((Grid.mk [10, 20] ⟨2, 1⟩ : Grid Nat).set ⟨1, 0⟩ 5).1 =
      (Grid.mk [10, 20] ⟨2, 1⟩ : Grid Nat).get ⟨1, 0⟩ ∧
    (((Grid.mk [10, 20] ⟨2, 1⟩ : Grid Nat).set ⟨1, 0⟩ 5).1).isSome = true ∧
    ((Grid.mk [10, 20] ⟨2, 1⟩ : Grid Nat).set ⟨1, 0⟩ 5).2.get ⟨1, 0⟩ = some 5 :=
  C4_set_get_round_trip Nat (Grid.mk [10, 20] ⟨2, 1⟩) ⟨1, 0⟩ 5 (by rfl) (by decide)

/-- Claim C5: `set` on an out-of-bounds position returns `none` and leaves the
grid entirely unchanged: the pair returned is exactly `(none, g)`, so the
dimensions and every existing cell are untouched. -/
theorem C5_set_oob_noop (T : Type) (g : Grid T) (pos : Vector) (v : T)
    (hb : g.in_bounds pos = false) :
    g.set pos v = (none, g) ∧ (g.set pos v).2.dim = g.dim ∧
    ∀ q : Vector, (g.set pos v).2.get q = g.get q := by
  have h := g.set_of_oob pos v hb
  exact ⟨h, by rw [h], fun q => by rw [h]⟩

/-- Witness for C5 on a concrete 2x1 grid at out-of-bounds position (2, 0). -/
theorem C5_set_oob_noop_witness :
    (Grid.mk [10, 20] ⟨2, 1⟩ : Grid Nat).set ⟨2, 0⟩ 9 =
      (none, Grid.mk [10, 20] ⟨2, 1⟩) ∧
    ((Grid.mk [10, 20] ⟨2, 1⟩ : Grid Nat).set ⟨2, 0⟩ 9).2.dim = ⟨2, 1⟩ ∧
    ∀ q : Vector, ((Grid.mk [10, 20] ⟨2, 1⟩ : Grid Nat).set ⟨2, 0⟩ 9).2.get q =
      (Grid.mk [10, 20] ⟨2, 1⟩ : Grid Nat).get q :=
  C5_set_oob_noop Nat (Grid.mk [10, 20] ⟨2, 1⟩) ⟨2, 0⟩ 9 (by decide)

/-- Claim C6: the nested-row constructor takes its width from the first row
and its height from the number of rows; it fails (fatally) exactly when some
later row's length differs from the first row's; zero rows give the (0, 0)
grid, which rejects every position; and rows [[1,2,3],[4,5,6]] give width 3,
height 2, cell (2,1) = 6. -/
theorem C6_from_nested_rows :
    (∀ (T : Type) (first : List T) (rest : List (List T)) (g : Grid T),
      Grid.from_nested_iter (first :: rest) = some g →
        g.width = (first.length : Int) ∧ g.height = (rest.length : Int) + 1) ∧
    (∀ (T : Type) (first : List T) (rest : List (List T)),
      Grid.from_nested_iter (first :: rest) = none ↔
        ∃ r ∈ rest, r.length ≠ first.length) ∧
    (Grid.from_nested_iter ([] : List (List Nat)) =
        some { raw := [], dim := ⟨0, 0⟩ } ∧
      ∀ pos : Vector, (Grid.mk ([] : List Nat) ⟨0, 0⟩).in_bounds pos = false) ∧
    ((Grid.from_nested_iter [[1, 2, 3], [4, 5, 6]]).map Grid.width = some 3 ∧
     (Grid.from_nested_iter [[1, 2, 3], [4, 5, 6]]).map Grid.height = some 2 ∧
     (Grid.from_nested_iter [[1, 2, 3], [4, 5, 6]]).bind (fun g => g.get ⟨2, 1⟩) =
       some 6) := by
  refine ⟨?_, ?_, ⟨rfl, ?_⟩, by decide, by decide, by decide⟩
  · intro T first rest g hg
    obtain ⟨-, hw, hh⟩ := Grid.from_nested_cons_spec hg
    exact ⟨hw, hh⟩
  · intro T first rest
    by_cases hall : ∀ r ∈ rest, r.length = first.length
    · rw [Grid.from_nested_cons, if_pos (by simpa [List.all_eq_true] using hall)]
      constructor
      · intro h; exact absurd h (by simp)
      · rintro ⟨r, hr, hne⟩; exact absurd (hall r hr) hne
    · rw [Grid.from_nested_cons, if_neg (by simpa [List.all_eq_true] using hall)]
      constructor
      · intro h1
        push_neg at hall
        exact hall
      · intro h2; rfl
  · intro pos
    rw [Bool.eq_false_iff]
    intro htrue
    obtain ⟨h1, h2, -, -⟩ :=
      ((Grid.mk ([] : List Nat) ⟨0, 0⟩).in_bounds_iff pos).mp htrue
    have hw0 : (Grid.mk ([] : List Nat) ⟨0, 0⟩ : Grid Nat).width = 0 := rfl
    rw [hw0] at h2
    omega

/-- Witness for C6 at concrete inputs: a well-formed nested construction and
a failing one with unequal rows. -/
theorem C6_from_nested_rows_witness :
    ((Grid.mk [1, 2, 3, 4, 5, 6] ⟨3, 2⟩ : Grid Nat).width = 3 ∧
      (Grid.mk [1, 2, 3, 4, 5, 6] ⟨3, 2⟩ : Grid Nat).height = (1 : Int) + 1) ∧
    (Grid.from_nested_iter [[1, 2], [3]] = (none : Option (Grid Nat)) ↔
      ∃ r ∈ [[3]], r.length ≠ ([1, 2] : List Nat).length) :=
  ⟨C6_from_nested_rows.1 Nat [1, 2, 3] [[4, 5, 6]]
      (Grid.mk [1, 2, 3, 4, 5, 6] ⟨3, 2⟩) (by decide),
   C6_from_nested_rows.2.1 Nat [1, 2] [[3]]⟩

/-- Claim C7: unchecked indexed access (the Index and IndexMut operators) on
an out-of-bounds position follows the fatal-violation path carrying both the
grid's dimensions and the offending position in its diagnostic, never a
default or clamped value; in bounds it returns the addressed cell. -/
theorem C7_index_fatal_violation :
    (∀ (T : Type) (g : Grid T) (pos : Vector), g.in_bounds pos = false →
      g.index pos = .panicked g.dim pos ∧ g.index_mut pos = .panicked g.dim pos) ∧
    (∀ (T : Type) (g : Grid T), g.WF → ∀ pos : Vector, g.in_bounds pos = true →
      ∃ t, g.get pos = some t ∧ g.index pos = .ok t ∧ g.index_mut pos = .ok t) := by
  constructor
  · intro T g pos hb
    have h := g.get_of_oob pos hb
    exact ⟨by simp [Grid.index, h], by simp [Grid.index_mut, Grid.get_mut_eq_get, h]⟩
  · intro T g hwf pos hb
    obtain ⟨t, ht⟩ := Option.isSome_iff_exists.mp (g.get_isSome hwf pos hb)
    exact ⟨t, ht, by simp [Grid.index, ht],
      by simp [Grid.index_mut, Grid.get_mut_eq_get, ht]⟩

/-- Witness for C7 on a concrete 2x1 grid: indexing (2, 0) panics with the
dimensions and the position, indexing (0, 0) returns the cell. -/
theorem C7_index_fatal_violation_witness :
    (Grid.mk [10, 20] ⟨2, 1⟩ : Grid Nat).index ⟨2, 0⟩ =
      .panicked ⟨2, 1⟩ ⟨2, 0⟩ ∧
    ∃ t, (Grid.mk [10, 20] ⟨2, 1⟩ : Grid Nat).get ⟨0, 0⟩ = some t ∧
      (Grid.mk [10, 20] ⟨2, 1⟩ : Grid Nat).index ⟨0, 0⟩ = .ok t ∧
      (Grid.mk [10, 20] ⟨2, 1⟩ : Grid Nat).index_mut ⟨0, 0⟩ = .ok t :=
  ⟨(C7_index_fatal_violation.1 Nat (Grid.mk [10, 20] ⟨2, 1⟩) ⟨2, 0⟩ (by decide)).1,
   C7_index_fatal_violation.2 Nat (Grid.mk [10, 20] ⟨2, 1⟩) (by rfl) ⟨0, 0⟩ (by decide)⟩

/-- Counterexample to C8 as stated: for `from_iter` the dimension validation
passes (`size 2 3 = some 6`) yet construction still fails fatally, because the
source holds only one value — so "when the validation passes, construction
succeeds" is false for `from_iter`. -/
theorem C8_validation_counterexample :
    size 2 3 = some 6 ∧ Grid.from_iter 2 3 ([1] : List Nat) = none := by decide

/-- Claim C8 (amended): every dimension-taking constructor validates
`0 < width`, `0 < height` and that `width*height` fits in `usize`, any
violation being the fatal (panicking) path, not a recoverable error; when the
validation passes, `new`, `default`, `from_simple_fn` and `from_fn` succeed,
while `from_iter` succeeds exactly when the source also yields at least
`width*height` values. -/
theorem C8_dimension_validation_amended :
    (∀ w h : Int, (size w h).isSome = true ↔
      0 < w ∧ 0 < h ∧ w.toNat * h.toNat ≤ usizeMax) ∧
    (∀ (T : Type) (w h : Int) (v : T), (Grid.new w h v).isSome = (size w h).isSome) ∧
    (∀ (T : Type) (w h : Int) (d : T),
      (Grid.defaultGrid w h d).isSome = (size w h).isSome) ∧
    (∀ (T : Type) (w h : Int) (f : Nat → T),
      (Grid.from_simple_fn w h f).isSome = (size w h).isSome) ∧
    (∀ (T : Type) (w h : Int) (f : Vector → T),
      (Grid.from_fn w h f).isSome = (size w h).isSome) ∧
    (∀ (T : Type) (w h : Int) (values : List T),
      (Grid.from_iter w h values).isSome = true ↔
        ∃ s, size w h = some s ∧ s ≤ values.length) := by
  refine ⟨?_, ?_, ?_, ?_, ?_, ?_⟩
  · intro w h
    constructor
    · intro hs
      obtain ⟨s, hseq⟩ := Option.isSome_iff_exists.mp hs
      obtain ⟨hw, hh, -, hle⟩ := size_eq_some_iff.mp hseq
      exact ⟨hw, hh, hle⟩
    · rintro ⟨hw, hh, hle⟩
      rw [size_eq_some_iff.mpr ⟨hw, hh, rfl, hle⟩]
      rfl
  · intro T w h v
    unfold Grid.new
    cases size w h <;> rfl
  · intro T w h d
    unfold Grid.defaultGrid
    cases size w h <;> rfl
  · intro T w h f
    unfold Grid.from_simple_fn
    cases size w h <;> rfl
  · intro T w h f
    unfold Grid.from_fn
    cases size w h <;> rfl
  · intro T w h values
    constructor
    · intro hsome
      obtain ⟨g, hg⟩ := Option.isSome_iff_exists.mp hsome
      obtain ⟨s, hs, hle, -⟩ := Grid.from_iter_eq_some.mp hg
      exact ⟨s, hs, hle⟩
    · rintro ⟨s, hs, hle⟩
      rw [Grid.from_iter_eq_some.mpr ⟨s, hs, hle, rfl⟩]
      rfl

/-- Witness for C8 (amended) at concrete inputs: valid 8x10 dimensions pass
the validation, and a 2x3 `from_iter` with 7 source values succeeds. -/
theorem C8_dimension_validation_amended_witness :
    (size 8 10).isSome = true ∧
    (Grid.from_iter 2 3 [1, 2, 3, 4, 5, 6, 7] : Option (Grid Nat)).isSome = true :=
  ⟨(C8_dimension_validation_amended.1 8 10).mpr ⟨by decide, by decide, by decide⟩,
   (C8_dimension_validation_amended.2.2.2.2.2 Nat 2 3 [1, 2, 3, 4, 5, 6, 7]).mpr
     ⟨6, by decide, by decide⟩⟩

/-- Claim C9: `pos_map` passes each cell its exact position — on any
well-formed grid the transformed cell at `pos` is `f pos` applied to the
source cell — so position-dependent transforms compose additively: on the
all-3 5x6 grid, adding `pos.x` then `pos.y` makes cell (1,4) first 4, then
8. -/
theorem C9_pos_map_additive :
    (∀ (T U : Type) (g : Grid T) (f : Vector → T → U), g.WF →
      ∀ pos : Vector, g.in_bounds pos = true →
        (g.pos_map f).get pos = (g.get pos).map (f pos)) ∧
    ((Grid.new 5 6 (3 : Int)).map
      (fun g => (g.pos_map fun p v => v + p.x).get ⟨1, 4⟩) = some (some 4)) ∧
    ((Grid.new 5 6 (3 : Int)).map
      (fun g =>
        ((g.pos_map fun p v => v + p.x).pos_map fun p v => v + p.y).get ⟨1, 4⟩) =
      some (some 8)) := by
  exact ⟨fun T U g f hwf pos hb => g.pos_map_get hwf f pos hb, by decide, by decide⟩

/-- Witness for C9 on a concrete 2x1 grid at position (1, 0). -/
theorem C9_pos_map_additive_witness :
    ((Grid.mk [3, 4] ⟨2, 1⟩ : Grid Nat).pos_map fun p v => (v : Int) + p.x).get ⟨1, 0⟩ =
      ((Grid.mk [3, 4] ⟨2, 1⟩ : Grid Nat).get ⟨1, 0⟩).map
        ((fun p v => (v : Int) + p.x) (⟨1, 0⟩ : Vector)) :=
  C9_pos_map_additive.1 Nat Int (Grid.mk [3, 4] ⟨2, 1⟩)
    (fun p v => (v : Int) + p.x) (by rfl) ⟨1, 0⟩ (by decide)

/-- Claim C10: rendering the debug text of a grid with zero elements panics —
the column-width computation takes the maximum stringified length of an empty
collection and unwraps it — while for every (well-formed) non-empty grid the
rendering succeeds. -/
theorem C10_debug_empty_grid :
    (∀ (T : Type) (g : Grid T) (toStr : T → String),
      g.raw = [] → g.fmt toStr = none) ∧
    (∀ (T : Type) (g : Grid T) (toStr : T → String),
      g.WF → g.raw ≠ [] → (g.fmt toStr).isSome = true) :=
  ⟨fun _ g toStr h => g.fmt_none_of_empty toStr h,
   fun _ g toStr hwf hne => g.fmt_isSome hwf toStr hne⟩

/-- Witness for C10: the degenerate (0, 0) grid fails to render, a 1x1 grid
renders. -/
theorem C10_debug_empty_grid_witness :
    (Grid.mk ([] : List Nat) ⟨0, 0⟩).fmt toString = none ∧
    ((Grid.mk [7] ⟨1, 1⟩ : Grid Nat).fmt toString).isSome = true :=
  ⟨C10_debug_empty_grid.1 Nat (Grid.mk [] ⟨0, 0⟩) toString rfl,
   C10_debug_empty_grid.2 Nat (Grid.mk [7] ⟨1, 1⟩) toString (by rfl) (by decide)⟩



end GridSpec
